import Mathlib

/-!
Shallow embedding of `src/activity/Activity1.py`, a mini expert system that
evaluates five boolean rules over a student record and appends one CSV row
per evaluation.

Modelling conventions:
* Python floats become `ℚ` (the program only compares, adds and clamps
  scores in [0,100], so exact rationals are a faithful abstraction).
* Python f-string details become `String` concatenations; the rendering of a
  number to text (Python's `str` / `:.1f`) is abstracted by `ratStr`, and the
  rendering of a boolean (Python's `str` giving `True`/`False`) by `pyStr`.
* The evaluator's `try`/`except` block is embedded by running a list of rule
  invocations whose results are `Except faultMessage (outcome, detail)`;
  the actual rule functions are total, so `evaluate_student` injects them
  with `Except.ok`, while theorems about fault handling quantify over
  arbitrary invocation lists fed to the same generic body.
* The log file is `Option (List (List String))`: `none` is an absent file,
  `some rows` a file holding those CSV rows; a present file has size zero
  exactly when its row list is empty.  `os.path.exists`/`getsize` raising
  `OSError` is the `osFail` flag; the `open`/write block raising `IOError`
  is the `ioFail` argument carrying the exception text.  The Python dict
  `row` is an association list; `csv.DictWriter` writes, for each field
  name in order, the looked-up value or `""` when the key is absent
  (`restval` default), and `detail_mapping[rule_name]` on an unknown key
  raises `KeyError`, embedded as `Except.error`.  The file contents left
  behind by an uncaught `KeyError` are not modelled, only that the call
  raises.  The call-time timestamp is passed in as a parameter.
-/

/-- Rendering of a rational score to text, abstracting Python's `str` and
`:.1f` formatting of floats. -/
def ratStr (q : ℚ) : String := toString q

/-- Rendering of a boolean to text the way Python's `str` does. -/
def pyStr (b : Bool) : String := cond b "True" "False"

/-- Student record, mirroring the `@dataclass Student`. -/
structure Student where
  name : String
  attendance_pct : ℚ
  final_grade : ℚ
  username_ok : Bool
  password_ok : Bool
  is_locked : Bool
  participated : Bool
  base_score : ℚ
  id_valid : Bool
  has_overdue : Bool

namespace ExpertSystem

/-- Threshold set in `ExpertSystem.__init__`. -/
def attendance_threshold : ℚ := 75

/-- Passing grade set in `ExpertSystem.__init__`. -/
def passing_grade : ℚ := 75

/-- Bonus points set in `ExpertSystem.__init__`. -/
def bonus_points : ℚ := 5

/-- Maximum score set in `ExpertSystem.__init__`. -/
def max_score : ℚ := 100

/-- Attendance Rule: invalid outside [0,100], else eligible iff
attendance is at least the threshold. -/
def attendance_rule (attendance_pct : ℚ) : Bool × String :=
  if ¬ (0 ≤ attendance_pct ∧ attendance_pct ≤ 100) then
    (false, "Invalid attendance: " ++ ratStr attendance_pct ++ "%")
  else
    let ok := decide (attendance_threshold ≤ attendance_pct)
    (ok, "attendance=" ++ ratStr attendance_pct ++ "% -> " ++
      (if ok then "eligible" else "not eligible"))

/-- Grading Rule: invalid outside [0,100], else pass iff the final grade is
at least the passing grade. -/
def grading_rule (final_grade : ℚ) : Bool × String :=
  if ¬ (0 ≤ final_grade ∧ final_grade ≤ 100) then
    (false, "Invalid grade: " ++ ratStr final_grade)
  else
    let ok := decide (passing_grade ≤ final_grade)
    (ok, "grade=" ++ ratStr final_grade ++ " -> " ++
      (if ok then "pass" else "fail"))

/-- Login System Rule: success iff username ok, password ok and not locked. -/
def login_system_rule (username_ok password_ok is_locked : Bool) : Bool × String :=
  let ok := username_ok && password_ok && (! is_locked)
  (ok, "user_ok=" ++ pyStr username_ok ++ ", pass_ok=" ++ pyStr password_ok ++
    ", locked=" ++ pyStr is_locked ++ " -> " ++
    (if ok then "login success" else "login denied"))

/-- Bonus Points Rule: invalid outside [0,100]; if participated, add the
bonus capped at the maximum score, else report the unchanged score. -/
def bonus_points_rule (participated : Bool) (base_score : ℚ) : Bool × String :=
  if ¬ (0 ≤ base_score ∧ base_score ≤ 100) then
    (false, "Invalid base score: " ++ ratStr base_score)
  else
    if participated then
      let new_score := min (base_score + bonus_points) max_score
      (true, "participated=" ++ pyStr participated ++ ", base=" ++ ratStr base_score ++
        " -> bonus +" ++ ratStr bonus_points ++ ", final=" ++ ratStr new_score)
    else
      (false, "participated=" ++ pyStr participated ++ ", base=" ++ ratStr base_score ++
        " -> no bonus, final=" ++ ratStr base_score)

/-- Library Borrowing Rule: allowed iff the ID is valid and nothing is
overdue. -/
def library_borrowing_rule (id_valid has_overdue : Bool) : Bool × String :=
  let ok := id_valid && (! has_overdue)
  (ok, "id_valid=" ++ pyStr id_valid ++ ", overdue=" ++ pyStr has_overdue ++
    " -> " ++ (if ok then "allowed" else "not allowed"))

/-- The five rule names in the fixed evaluation order of
`evaluate_student`. -/
def ruleNames : List String :=
  ["AttendanceRule", "GradingRule", "LoginSystemRule", "BonusPointsRule",
   "LibraryBorrowingRule"]

/-- Body of the `try` block of `evaluate_student`: run the invocations in
order, accumulating `(name, value)` entries; the first fault discards
nothing already accumulated but stops the remaining invocations, returning
the fault message. -/
def tryAccum :
    List (String × Except String (Bool × String)) →
      List (String × (Bool × String)) × Option String
  | [] => ([], none)
  | (n, Except.ok v) :: rest =>
      let r := tryAccum rest
      ((n, v) :: r.1, r.2)
  | (_, Except.error e) :: _ => ([], some e)

/-- Entries accumulated before the first fault (specification companion of
`tryAccum`). -/
def okTakenResults :
    List (String × Except String (Bool × String)) →
      List (String × (Bool × String))
  | [] => []
  | (n, Except.ok v) :: rest => (n, v) :: okTakenResults rest
  | (_, Except.error _) :: _ => []

/-- Message of the first faulting invocation, if any. -/
def firstFault : List (String × Except String (Bool × String)) → Option String
  | [] => none
  | (_, Except.ok _) :: rest => firstFault rest
  | (_, Except.error e) :: _ => some e

/-- Number of invocations before the first fault. -/
def okCount : List (String × Except String (Bool × String)) → Nat
  | [] => 0
  | (_, Except.ok _) :: rest => okCount rest + 1
  | (_, Except.error _) :: _ => 0

/-- Return value of `evaluate_student`: the results mapping together with
the diagnostic printed when a fault was caught (`none` when no fault). -/
structure EvalReturn where
  results : List (String × (Bool × String))
  printed : Option String
deriving DecidableEq

/-- Generic body of `evaluate_student`: given the student's name and the
ordered list of rule invocations (each either an `(outcome, detail)` value
or a fault), accumulate results until the first fault, which is caught and
turned into the printed diagnostic; the partial results are returned. -/
def evaluate_calls (studentName : String)
    (calls : List (String × Except String (Bool × String))) : EvalReturn :=
  let r := tryAccum calls
  ⟨r.1, Option.map
    (fun e => "Error evaluating student " ++ studentName ++ ": " ++ e) r.2⟩

/-- The five rule invocations of `evaluate_student` in source order; the
actual rules are total, so each is an `Except.ok`. -/
def ruleCalls (s : Student) : List (String × Except String (Bool × String)) :=
  [("AttendanceRule", Except.ok (attendance_rule s.attendance_pct)),
   ("GradingRule", Except.ok (grading_rule s.final_grade)),
   ("LoginSystemRule",
     Except.ok (login_system_rule s.username_ok s.password_ok s.is_locked)),
   ("BonusPointsRule",
     Except.ok (bonus_points_rule s.participated s.base_score)),
   ("LibraryBorrowingRule",
     Except.ok (library_borrowing_rule s.id_valid s.has_overdue))]

/-- Evaluate all rules for a student, mirroring `evaluate_student`. -/
def evaluate_student (s : Student) : EvalReturn :=
  evaluate_calls s.name (ruleCalls s)

/-- CSV header names in their fixed order, mirroring `fieldnames`. -/
def fieldnames : List String :=
  ["timestamp", "student",
   "AttendanceRule", "AttendanceDetail",
   "GradingRule", "GradingDetail",
   "LoginSystemRule", "LoginDetail",
   "BonusPointsRule", "BonusDetail",
   "LibraryBorrowingRule", "LibraryDetail"]

/-- The `detail_mapping` dict as an association table. -/
def detailTable : List (String × String) :=
  [("AttendanceRule", "AttendanceDetail"),
   ("GradingRule", "GradingDetail"),
   ("LoginSystemRule", "LoginDetail"),
   ("BonusPointsRule", "BonusDetail"),
   ("LibraryBorrowingRule", "LibraryDetail")]

/-- Lookup in `detail_mapping`; `none` models the `KeyError` case. -/
def detail_mapping (ruleName : String) : Option String :=
  detailTable.lookup ruleName

/-- Per-rule entries of the `row` dict, built in iteration order of the
results mapping; the first key missing from `detail_mapping` raises
`KeyError`, carried as `Except.error`. -/
def rulePairs :
    List (String × (Bool × String)) → Except String (List (String × String))
  | [] => Except.ok []
  | (n, rd) :: rest =>
    match detail_mapping n with
    | none => Except.error n
    | some dn =>
      match rulePairs rest with
      | Except.error k => Except.error k
      | Except.ok ps => Except.ok ((n, pyStr rd.1) :: (dn, rd.2) :: ps)

/-- The full `row` dict: timestamp and student entries followed by the
per-rule entries. -/
def buildRowPairs (ts studentName : String)
    (results : List (String × (Bool × String))) :
    Except String (List (String × String)) :=
  match rulePairs results with
  | Except.error k => Except.error k
  | Except.ok ps =>
      Except.ok (("timestamp", ts) :: ("student", studentName) :: ps)

/-- Specification companion of `rulePairs` on mappings whose keys are all
known to `detail_mapping`. -/
def okRulePairs :
    List (String × (Bool × String)) → List (String × String)
  | [] => []
  | (n, rd) :: rest =>
      (n, pyStr rd.1) :: ((detail_mapping n).getD "", rd.2) :: okRulePairs rest

/-- Specification companion of `buildRowPairs`. -/
def rowDict (ts studentName : String)
    (results : List (String × (Bool × String))) : List (String × String) :=
  ("timestamp", ts) :: ("student", studentName) :: okRulePairs results

/-- Header decision of `log_results`: the file is absent or has size zero. -/
def need_header (fs : Option (List (List String))) : Bool :=
  match fs with
  | none => true
  | some rows => rows.isEmpty

/-- One CSV data row: for each field name in order, the value stored in the
row dict, or the empty string when the dict has no entry for it
(`csv.DictWriter` with default `restval`). -/
def rowCells (ps : List (String × String)) : List String :=
  fieldnames.map (fun f => ((ps.lookup f).getD ""))

/-- Log evaluation results, mirroring `log_results`.  Arguments `osFail`
(the existence/size check raised `OSError`) and `ioFail` (the open/write
block raised `IOError` with the given text) inject the I/O faults the
source catches.  The result is `Except.error k` when building the row
raised an uncaught `KeyError` on key `k`; otherwise `Except.ok` of the new
file contents and of the diagnostic printed when the `IOError` was
caught. -/
def log_results (ts studentName : String)
    (results : List (String × (Bool × String)))
    (osFail : Bool) (ioFail : Option String)
    (fs : Option (List (List String))) :
    Except String (Option (List (List String)) × Option String) :=
  let nh := if osFail then true else need_header fs
  match ioFail with
  | some e => Except.ok (fs, some ("Error writing to CSV: " ++ e))
  | none =>
    match buildRowPairs ts studentName results with
    | Except.error k => Except.error k
    | Except.ok ps =>
        Except.ok
          (some ((fs.getD []) ++ (if nh then [fieldnames] else []) ++
            [rowCells ps]), none)

end ExpertSystem

open ExpertSystem

/-- The accumulator of the try block splits into the entries before the
first fault and the first fault message. -/
theorem tryAccum_eq (calls : List (String × Except String (Bool × String))) :
    tryAccum calls = (okTakenResults calls, firstFault calls) := by
  induction calls with
  | nil => rfl
  | cons c rest ih =>
    rcases c with ⟨n, v⟩
    rcases v with e | v
    · rfl
    · simp [tryAccum, okTakenResults, firstFault, ih]

/-- Keys of the accumulated entries are the first `okCount` invocation
names. -/
theorem okTaken_map_fst (calls : List (String × Except String (Bool × String))) :
    (okTakenResults calls).map Prod.fst =
      (calls.map Prod.fst).take (okCount calls) := by
  induction calls with
  | nil => rfl
  | cons c rest ih =>
    rcases c with ⟨n, v⟩
    rcases v with e | v
    · rfl
    · simp [okTakenResults, okCount, ih]

/-- When every invocation before the faulting one succeeds, the try block
stops at the fault with exactly the earlier entries accumulated. -/
theorem tryAccum_append_fault (n e : String)
    (post : List (String × Except String (Bool × String)))
    (pre : List (String × Except String (Bool × String)))
    (h : ∀ c ∈ pre, ∃ v, c.2 = Except.ok v) :
    tryAccum (pre ++ (n, Except.error e) :: post) =
      (okTakenResults pre, some e) := by
  induction pre with
  | nil => rfl
  | cons c rest ih =>
    rcases h c (List.mem_cons_self c rest) with ⟨v, hv⟩
    rcases c with ⟨cn, cv⟩
    simp only at hv
    subst hv
    have ih2 := ih (fun d hd => h d (List.mem_cons_of_mem _ hd))
    simp [tryAccum, okTakenResults, ih2]

/-- On an all-successful invocation list, the accumulated keys are exactly
the invocation names. -/
theorem okTaken_allok_fst
    (pre : List (String × Except String (Bool × String)))
    (h : ∀ c ∈ pre, ∃ v, c.2 = Except.ok v) :
    (okTakenResults pre).map Prod.fst = pre.map Prod.fst := by
  induction pre with
  | nil => rfl
  | cons c rest ih =>
    rcases h c (List.mem_cons_self c rest) with ⟨v, hv⟩
    rcases c with ⟨cn, cv⟩
    simp only at hv
    subst hv
    simp [okTakenResults, ih (fun d hd => h d (List.mem_cons_of_mem _ hd))]

/-- Every fixed rule name has a detail column in `detail_mapping`. -/
theorem mem_ruleNames_isSome : ∀ k ∈ ruleNames, (detail_mapping k).isSome := by
  decide

/-- Keys outside the five rule names are unknown to `detail_mapping`. -/
theorem detail_mapping_none (k : String) (h : k ∉ ruleNames) :
    detail_mapping k = none := by
  simp only [ruleNames, List.mem_cons, List.not_mem_nil, or_false] at h
  push_neg at h
  obtain ⟨h1, h2, h3, h4, h5⟩ := h
  simp [detail_mapping, detailTable, List.lookup_cons, beq_false_of_ne h1,
    beq_false_of_ne h2, beq_false_of_ne h3, beq_false_of_ne h4,
    beq_false_of_ne h5, List.lookup]

/-- A key known to `detail_mapping` is one of the five rule names. -/
theorem mem_of_detail_isSome (k : String) (h : (detail_mapping k).isSome) :
    k ∈ ruleNames := by
  by_contra hk
  rw [detail_mapping_none k hk] at h
  simp at h

/-- On a results mapping whose keys are all rule names, the row dict
entries are built without a `KeyError`. -/
theorem rulePairs_ok (r : List (String × (Bool × String)))
    (h : ∀ k ∈ r.map Prod.fst, k ∈ ruleNames) :
    rulePairs r = Except.ok (okRulePairs r) := by
  induction r with
  | nil => rfl
  | cons c rest ih =>
    rcases c with ⟨n, rd⟩
    have hn : n ∈ ruleNames := h n (by simp)
    have hs := mem_ruleNames_isSome n hn
    rcases hdm : detail_mapping n with _ | dn
    · rw [hdm] at hs; simp at hs
    · have ih2 := ih (fun k hk => h k (by simp [hk]))
      simp [rulePairs, hdm, ih2, okRulePairs]

/-- A results mapping holding a key outside the five rule names makes the
row construction raise a `KeyError` on an unknown key. -/
theorem rulePairs_err (r : List (String × (Bool × String)))
    (h : ∃ k ∈ r.map Prod.fst, k ∉ ruleNames) :
    ∃ k, rulePairs r = Except.error k ∧ k ∉ ruleNames := by
  induction r with
  | nil => simp at h
  | cons c rest ih =>
    rcases c with ⟨n, rd⟩
    rcases hdm : detail_mapping n with _ | dn
    · refine ⟨n, by simp [rulePairs, hdm], fun hn => ?_⟩
      have hs := mem_ruleNames_isSome n hn
      rw [hdm] at hs; simp at hs
    · have hn : n ∈ ruleNames :=
        mem_of_detail_isSome n (by rw [hdm]; rfl)
      rcases h with ⟨k, hk, hkn⟩
      simp only [List.map_cons, List.mem_cons] at hk
      rcases hk with rfl | hk
      · exact absurd hn hkn
      · rcases ih ⟨k, hk, hkn⟩ with ⟨k2, herr, hk2⟩
        exact ⟨k2, by simp [rulePairs, hdm, herr], hk2⟩

/-- A key that differs from every rule key and every detail key of a
mapping is absent from its row-dict entries. -/
theorem okRulePairs_lookup_none (r : List (String × (Bool × String)))
    (x : String)
    (h : ∀ k ∈ r.map Prod.fst, x ≠ k ∧ x ≠ (detail_mapping k).getD "") :
    (okRulePairs r).lookup x = none := by
  induction r with
  | nil => rfl
  | cons c rest ih =>
    rcases c with ⟨n, rd⟩
    obtain ⟨hx1, hx2⟩ := h n (by simp)
    have ih2 := ih (fun k hk => h k (by simp [hk]))
    simp [okRulePairs, List.lookup_cons, beq_false_of_ne hx1,
      beq_false_of_ne hx2, ih2]

/-- Rule names and their detail columns are distinct from the timestamp and
student columns. -/
theorem ruleNames_not_meta :
    ∀ a ∈ ruleNames, a ≠ "timestamp" ∧ a ≠ "student" ∧
      (detail_mapping a).getD "" ≠ "timestamp" ∧
      (detail_mapping a).getD "" ≠ "student" := by decide

/-- Distinct rule names have distinct detail columns. -/
theorem detail_inj :
    ∀ a ∈ ruleNames, ∀ b ∈ ruleNames, a ≠ b →
      (detail_mapping a).getD "" ≠ (detail_mapping b).getD "" := by decide

/-- No detail column name is itself a rule name. -/
theorem detail_not_rule :
    ∀ a ∈ ruleNames, ∀ b ∈ ruleNames, (detail_mapping a).getD "" ≠ b := by
  decide

/-- A rule absent from the results mapping has no entry in the row dict,
neither for its outcome column nor for its detail column. -/
theorem rowDict_lookup_absent (ts nm : String)
    (r : List (String × (Bool × String))) (n : String)
    (hn : n ∈ ruleNames) (habs : n ∉ r.map Prod.fst)
    (hk : ∀ k ∈ r.map Prod.fst, k ∈ ruleNames) :
    (rowDict ts nm r).lookup n = none ∧
      (rowDict ts nm r).lookup ((detail_mapping n).getD "") = none := by
  obtain ⟨hts, hst, hdts, hdst⟩ := ruleNames_not_meta n hn
  constructor
  · have hrest : (okRulePairs r).lookup n = none := by
      refine okRulePairs_lookup_none r n (fun k hkm => ?_)
      exact ⟨fun he => habs (he ▸ hkm),
        Ne.symm (detail_not_rule k (hk k hkm) n hn)⟩
    simp [rowDict, List.lookup_cons, beq_false_of_ne hts,
      beq_false_of_ne hst, hrest]
  · have hrest : (okRulePairs r).lookup ((detail_mapping n).getD "") = none := by
      refine okRulePairs_lookup_none r ((detail_mapping n).getD "")
        (fun k hkm => ?_)
      have hnk : n ≠ k := fun he => habs (he ▸ hkm)
      exact ⟨detail_not_rule n hn k (hk k hkm),
        detail_inj n hn k (hk k hkm) hnk⟩
    simp [rowDict, List.lookup_cons, beq_false_of_ne hdts,
      beq_false_of_ne hdst, hrest]

/-- Successful logging appends the header when needed followed by the data
row built from the row dict. -/
theorem log_results_ok (ts nm : String)
    (r : List (String × (Bool × String))) (os : Bool)
    (fs : Option (List (List String)))
    (h : ∀ k ∈ r.map Prod.fst, k ∈ ruleNames) :
    log_results ts nm r os none fs =
      Except.ok (some ((fs.getD []) ++
        (if (if os then true else need_header fs) then [fieldnames] else []) ++
        [rowCells (rowDict ts nm r)]), none) := by
  simp [log_results, buildRowPairs, rulePairs_ok r h, rowDict]

/-- C1: for every attendance value in [0,100] the Attendance Rule outcome
is true iff the value is at least 75 (inclusive at 75), out-of-range values
give a false outcome with the invalid-input detail, and the Grading Rule
satisfies the identical law with the same threshold 75 on the final
grade. -/
theorem c1_threshold_law (a g : ℚ) :
    attendance_threshold = 75 ∧ passing_grade = 75 ∧
    ((0 ≤ a ∧ a ≤ 100) → (attendance_rule a).1 = decide (75 ≤ a)) ∧
    ((a < 0 ∨ 100 < a) →
      attendance_rule a = (false, "Invalid attendance: " ++ ratStr a ++ "%")) ∧
    ((0 ≤ g ∧ g ≤ 100) → (grading_rule g).1 = decide (75 ≤ g)) ∧
    ((g < 0 ∨ 100 < g) →
      grading_rule g = (false, "Invalid grade: " ++ ratStr g)) := by
  refine ⟨rfl, rfl, ?_, ?_, ?_, ?_⟩
  · intro h
    simp [attendance_rule, h.1, h.2, attendance_threshold]
  · intro h
    have hc : ¬ (0 ≤ a ∧ a ≤ 100) := by
      rcases h with h | h
      · exact fun hc => absurd hc.1 (not_le.mpr h)
      · exact fun hc => absurd hc.2 (not_le.mpr h)
    simp [attendance_rule, hc]
  · intro h
    simp [grading_rule, h.1, h.2, passing_grade]
  · intro h
    have hc : ¬ (0 ≤ g ∧ g ≤ 100) := by
      rcases h with h | h
      · exact fun hc => absurd hc.1 (not_le.mpr h)
      · exact fun hc => absurd hc.2 (not_le.mpr h)
    simp [grading_rule, hc]

/-- C1 witness: the threshold law evaluated at 80 and at the boundary 75
(outcomes true), and at the out-of-range inputs 150 and -1. -/
theorem c1_threshold_law_witness :
    (attendance_rule 80).1 = decide ((75 : ℚ) ≤ 80) ∧
    (attendance_rule 150).1 = false ∧
    attendance_rule 150 =
      (false, "Invalid attendance: " ++ ratStr 150 ++ "%") ∧
    (grading_rule 75).1 = decide ((75 : ℚ) ≤ 75) ∧
    grading_rule (-1) = (false, "Invalid grade: " ++ ratStr (-1)) :=
  ⟨(c1_threshold_law 80 80).2.2.1 ⟨by decide, by decide⟩,
   by rw [(c1_threshold_law 150 0).2.2.2.1 (Or.inr (by decide))],
   (c1_threshold_law 150 0).2.2.2.1 (Or.inr (by decide)),
   (c1_threshold_law 0 75).2.2.2.2.1 ⟨by decide, by decide⟩,
   (c1_threshold_law 0 (-1)).2.2.2.2.2 (Or.inl (by decide))⟩

/-- C4: for base scores in [0,100], participating yields a true outcome
with a reported final score of min(base + 5, 100), and not participating
yields a false outcome with the base score reported unchanged. -/
theorem c4_bonus_rule_law (b : ℚ) (h0 : 0 ≤ b) (h100 : b ≤ 100) :
    bonus_points_rule true b =
      (true, "participated=" ++ pyStr true ++ ", base=" ++ ratStr b ++
        " -> bonus +" ++ ratStr bonus_points ++ ", final=" ++
        ratStr (min (b + 5) 100)) ∧
    bonus_points_rule false b =
      (false, "participated=" ++ pyStr false ++ ", base=" ++ ratStr b ++
        " -> no bonus, final=" ++ ratStr b) := by
  constructor
  · simp [bonus_points_rule, h0, h100, bonus_points, max_score]
  · simp [bonus_points_rule, h0, h100]

/-- C4 witness: base 96 with participation reports the clamped score 100,
base 50 reports 55, and base 96 without participation reports 96
unchanged. -/
theorem c4_bonus_rule_law_witness :
    bonus_points_rule true 96 =
      (true, "participated=" ++ pyStr true ++ ", base=" ++ ratStr 96 ++
        " -> bonus +" ++ ratStr bonus_points ++ ", final=" ++
        ratStr (min (96 + 5) 100)) ∧
    min ((96 : ℚ) + 5) 100 = 100 ∧
    bonus_points_rule true 50 =
      (true, "participated=" ++ pyStr true ++ ", base=" ++ ratStr 50 ++
        " -> bonus +" ++ ratStr bonus_points ++ ", final=" ++
        ratStr (min (50 + 5) 100)) ∧
    min ((50 : ℚ) + 5) 100 = 55 ∧
    bonus_points_rule false 96 =
      (false, "participated=" ++ pyStr false ++ ", base=" ++ ratStr 96 ++
        " -> no bonus, final=" ++ ratStr 96) :=
  ⟨(c4_bonus_rule_law 96 (by decide) (by decide)).1,
   by rw [min_eq_right]; norm_num,
   (c4_bonus_rule_law 50 (by decide) (by decide)).1,
   by rw [min_eq_left] <;> norm_num,
   (c4_bonus_rule_law 96 (by decide) (by decide)).2⟩

/-- C5: the Login Rule outcome is true exactly for valid username, valid
password and an unlocked account; the other seven boolean combinations are
false. -/
theorem c5_login_truth_table :
    ∀ u p l : Bool, (login_system_rule u p l).1 = true ↔
      (u = true ∧ p = true ∧ l = false) := by decide

/-- C6: the Library Borrowing Rule outcome is true exactly for a valid ID
with no overdue items; the other three boolean combinations are false. -/
theorem c6_library_truth_table :
    ∀ i o : Bool, (library_borrowing_rule i o).1 = true ↔
      (i = true ∧ o = false) := by decide

/-- C2 counterexample: with the five rule invocations in their fixed order
and a fault in the Attendance Rule alone, the Grading Rule invocation is
present and non-faulting, yet the returned mapping is empty, so it does
not contain the outcome of each non-faulting rule. -/
theorem c2_counterexample :
    (("GradingRule", Except.ok ((true, "g") : Bool × String)) ∈
      [("AttendanceRule",
         (Except.error "fault" : Except String (Bool × String))),
       ("GradingRule", Except.ok ((true, "g") : Bool × String)),
       ("LoginSystemRule", Except.ok ((true, "l") : Bool × String)),
       ("BonusPointsRule", Except.ok ((true, "b") : Bool × String)),
       ("LibraryBorrowingRule", Except.ok ((true, "y") : Bool × String))]) ∧
    (evaluate_calls "S"
      [("AttendanceRule",
         (Except.error "fault" : Except String (Bool × String))),
       ("GradingRule", Except.ok ((true, "g") : Bool × String)),
       ("LoginSystemRule", Except.ok ((true, "l") : Bool × String)),
       ("BonusPointsRule", Except.ok ((true, "b") : Bool × String)),
       ("LibraryBorrowingRule",
         Except.ok ((true, "y") : Bool × String))]).results = [] :=
  ⟨List.mem_cons_of_mem _ (List.mem_cons_self _ _), rfl⟩

/-- C2 as amended: a fault in a rule invocation aborts the evaluation of
the rules after it; the returned mapping contains exactly the outcomes of
the invocations preceding the first fault, and nothing for the later
rules, faulting or not. -/
theorem c2_fault_aborts_rest (nm n e : String)
    (pre post : List (String × Except String (Bool × String)))
    (hpre : ∀ c ∈ pre, ∃ v, c.2 = Except.ok v) :
    (evaluate_calls nm (pre ++ (n, Except.error e) :: post)).results =
      okTakenResults pre ∧
    (okTakenResults pre).map Prod.fst = pre.map Prod.fst ∧
    (evaluate_calls nm (pre ++ (n, Except.error e) :: post)).results.length =
      pre.length := by
  have ht := tryAccum_append_fault n e post pre hpre
  have hf := okTaken_allok_fst pre hpre
  refine ⟨by simp [evaluate_calls, ht], hf, ?_⟩
  have hl : (okTakenResults pre).length = pre.length := by
    have := congrArg List.length hf
    simpa using this
  simp [evaluate_calls, ht, hl]

/-- C2 amended witness: one successful invocation before the fault, one
non-faulting invocation after it; exactly the earlier outcome is
returned. -/
theorem c2_fault_aborts_rest_witness :
    (evaluate_calls "S"
      (([("AttendanceRule", Except.ok ((true, "a") : Bool × String))] :
          List (String × Except String (Bool × String))) ++
        ("GradingRule", Except.error "fault") ::
          [("LoginSystemRule",
            Except.ok ((true, "l") : Bool × String))])).results =
      okTakenResults
        [("AttendanceRule", Except.ok ((true, "a") : Bool × String))] :=
  (c2_fault_aborts_rest "S" "GradingRule" "fault"
    [("AttendanceRule", Except.ok ((true, "a") : Bool × String))]
    [("LoginSystemRule", Except.ok ((true, "l") : Bool × String))]
    (by
      intro c hc
      rw [List.mem_singleton] at hc
      subst hc
      exact ⟨(true, "a"), rfl⟩)).1

/-- C3: when a rule invocation faults, the evaluator catches the first
fault, prints a diagnostic referencing the student's name, and returns the
mapping accumulated before the fault; the fault is not propagated. -/
theorem c3_fault_caught (nm : String)
    (calls : List (String × Except String (Bool × String))) (e : String)
    (h : firstFault calls = some e) :
    (evaluate_calls nm calls).printed =
      some ("Error evaluating student " ++ nm ++ ": " ++ e) ∧
    (evaluate_calls nm calls).results = okTakenResults calls ∧
    (∃ p q, "Error evaluating student " ++ nm ++ ": " ++ e =
      p ++ nm ++ q) := by
  refine ⟨?_, ?_, "Error evaluating student ", ": " ++ e, ?_⟩
  · simp [evaluate_calls, tryAccum_eq, h]
  · simp [evaluate_calls, tryAccum_eq]
  · rw [String.append_assoc]

/-- C3 witness: a concrete fault in the second invocation is caught, the
diagnostic names the student, and the first invocation's outcome is
returned. -/
theorem c3_fault_caught_witness :
    (evaluate_calls "Ana"
      [("AttendanceRule", Except.ok ((true, "a") : Bool × String)),
       ("GradingRule", Except.error "boom")]).printed =
      some ("Error evaluating student " ++ "Ana" ++ ": " ++ "boom") ∧
    (evaluate_calls "Ana"
      [("AttendanceRule", Except.ok ((true, "a") : Bool × String)),
       ("GradingRule", Except.error "boom")]).results =
      okTakenResults
        [("AttendanceRule", Except.ok ((true, "a") : Bool × String)),
         ("GradingRule", Except.error "boom")] ∧
    (∃ p q, "Error evaluating student " ++ "Ana" ++ ": " ++ "boom" =
      p ++ "Ana" ++ q) :=
  c3_fault_caught "Ana"
    [("AttendanceRule", Except.ok ((true, "a") : Bool × String)),
     ("GradingRule", Except.error "boom")] "boom" rfl

/-- C9: for every student the returned mapping's keys are exactly the five
rule names in their fixed order, and under any invocation list (covering a
rule faulting mid-evaluation) the keys are a take-prefix of the invocation
names, so no key outside them ever appears. -/
theorem c9_keys_ordered :
    (∀ s : Student,
      (evaluate_student s).results.map Prod.fst = ruleNames) ∧
    (∀ (nm : String) (calls : List (String × Except String (Bool × String))),
      calls.map Prod.fst = ruleNames →
        ∃ k, (evaluate_calls nm calls).results.map Prod.fst =
          ruleNames.take k) := by
  constructor
  · intro s
    rfl
  · intro nm calls hc
    refine ⟨okCount calls, ?_⟩
    rw [← hc]
    simp [evaluate_calls, tryAccum_eq, okTaken_map_fst]

/-- C9 witness: the five invocations in order with a fault at the third
yield keys forming a take-prefix of the rule-name order. -/
theorem c9_keys_ordered_witness :
    ∃ k, (evaluate_calls "S"
      [("AttendanceRule", Except.ok ((true, "a") : Bool × String)),
       ("GradingRule", Except.ok ((false, "g") : Bool × String)),
       ("LoginSystemRule", Except.error "boom"),
       ("BonusPointsRule", Except.ok ((true, "b") : Bool × String)),
       ("LibraryBorrowingRule",
         Except.ok ((true, "y") : Bool × String))]).results.map Prod.fst =
      ruleNames.take k :=
  c9_keys_ordered.2 "S"
    [("AttendanceRule", Except.ok ((true, "a") : Bool × String)),
     ("GradingRule", Except.ok ((false, "g") : Bool × String)),
     ("LoginSystemRule", Except.error "boom"),
     ("BonusPointsRule", Except.ok ((true, "b") : Bool × String)),
     ("LibraryBorrowingRule", Except.ok ((true, "y") : Bool × String))] rfl

/-- C7: a header is written exactly when the file is absent or empty, the
header lists timestamp, student, then each rule's outcome column followed
by its detail column in the fixed rule order, and two successful calls on
a fresh log leave exactly one header row followed by two data rows. -/
theorem c7_header_once (fs : Option (List (List String)))
    (ts1 ts2 nm1 nm2 : String)
    (r1 r2 : List (String × (Bool × String)))
    (hfresh : fs = none ∨ fs = some [])
    (h1 : ∀ k ∈ r1.map Prod.fst, k ∈ ruleNames)
    (h2 : ∀ k ∈ r2.map Prod.fst, k ∈ ruleNames) :
    (∀ g : Option (List (List String)),
      need_header g = true ↔ (g = none ∨ g = some [])) ∧
    fieldnames = ["timestamp", "student",
      "AttendanceRule", "AttendanceDetail", "GradingRule", "GradingDetail",
      "LoginSystemRule", "LoginDetail", "BonusPointsRule", "BonusDetail",
      "LibraryBorrowingRule", "LibraryDetail"] ∧
    log_results ts1 nm1 r1 false none fs =
      Except.ok (some [fieldnames, rowCells (rowDict ts1 nm1 r1)], none) ∧
    log_results ts2 nm2 r2 false none
        (some [fieldnames, rowCells (rowDict ts1 nm1 r1)]) =
      Except.ok (some [fieldnames, rowCells (rowDict ts1 nm1 r1),
        rowCells (rowDict ts2 nm2 r2)], none) := by
  refine ⟨?_, rfl, ?_, ?_⟩
  · intro g
    cases g with
    | none => simp [need_header]
    | some rows => simp [need_header, List.isEmpty_iff]
  · rw [log_results_ok ts1 nm1 r1 false fs h1]
    rcases hfresh with rfl | rfl <;> simp [need_header]
  · rw [log_results_ok ts2 nm2 r2 false _ h2]
    simp [need_header]

/-- C7 witness: two concrete calls on an absent file produce one header
row followed by the two data rows. -/
theorem c7_header_once_witness :
    log_results "t1" "A" [("AttendanceRule", ((true : Bool), "d"))] false
        none none =
      Except.ok (some [fieldnames,
        rowCells (rowDict "t1" "A"
          [("AttendanceRule", ((true : Bool), "d"))])], none) ∧
    log_results "t2" "B" [] false none
        (some [fieldnames,
          rowCells (rowDict "t1" "A"
            [("AttendanceRule", ((true : Bool), "d"))])]) =
      Except.ok (some [fieldnames,
        rowCells (rowDict "t1" "A"
          [("AttendanceRule", ((true : Bool), "d"))]),
        rowCells (rowDict "t2" "B" [])], none) :=
  ⟨(c7_header_once none "t1" "t2" "A" "B"
      [("AttendanceRule", ((true : Bool), "d"))] [] (Or.inl rfl)
      (by decide) (by decide)).2.2.1,
   (c7_header_once none "t1" "t2" "A" "B"
      [("AttendanceRule", ((true : Bool), "d"))] [] (Or.inl rfl)
      (by decide) (by decide)).2.2.2⟩

/-- C8: when the open or write step fails with an I/O error, the logger
reports the failure in a diagnostic, leaves the file as it was, and
returns normally instead of raising. -/
theorem c8_io_error_swallowed (ts nm : String)
    (r : List (String × (Bool × String))) (os : Bool) (e : String)
    (fs : Option (List (List String))) :
    log_results ts nm r os (some e) fs =
      Except.ok (fs, some ("Error writing to CSV: " ++ e)) := rfl

/-- C10: for a results mapping with keys among the five rule identifiers,
the logger appends one data row supplying a value for each of the twelve
header columns in header order, the columns of an absent rule staying
empty; a mapping with a key outside the five makes it raise an uncaught
KeyError. -/
theorem c10_row_columns_and_keyerror (ts nm : String)
    (fs : Option (List (List String)))
    (r : List (String × (Bool × String))) :
    fieldnames.length = 12 ∧
    ((∀ k ∈ r.map Prod.fst, k ∈ ruleNames) →
      log_results ts nm r false none fs =
        Except.ok (some ((fs.getD []) ++
          (if need_header fs then [fieldnames] else []) ++
          [rowCells (rowDict ts nm r)]), none) ∧
      rowCells (rowDict ts nm r) =
        fieldnames.map
          (fun f => (((rowDict ts nm r).lookup f).getD "")) ∧
      (rowCells (rowDict ts nm r)).length = fieldnames.length ∧
      (∀ n ∈ ruleNames, n ∉ r.map Prod.fst →
        ((rowDict ts nm r).lookup n).getD "" = "" ∧
        ((rowDict ts nm r).lookup
          ((detail_mapping n).getD "")).getD "" = "")) ∧
    ((∃ k ∈ r.map Prod.fst, k ∉ ruleNames) →
      ∃ k, log_results ts nm r false none fs = Except.error k ∧
        k ∉ ruleNames) := by
  refine ⟨rfl, ?_, ?_⟩
  · intro hk
    refine ⟨?_, rfl, by simp [rowCells], ?_⟩
    · have h := log_results_ok ts nm r false fs hk
      simpa using h
    · intro n hn habs
      obtain ⟨ha, hb⟩ := rowDict_lookup_absent ts nm r n hn habs hk
      exact ⟨by rw [ha]; rfl, by rw [hb]; rfl⟩
  · intro hk
    rcases rulePairs_err r hk with ⟨k, herr, hkn⟩
    exact ⟨k, by simp [log_results, buildRowPairs, herr], hkn⟩

/-- C10 witness: logging a partial mapping holding only the Grading Rule
appends a row whose Attendance columns stay empty, and logging a mapping
with an unknown key raises a KeyError. -/
theorem c10_row_columns_and_keyerror_witness :
    log_results "t" "A" [("GradingRule", ((false : Bool), "gd"))] false none
        none =
      Except.ok (some (((none : Option (List (List String))).getD []) ++
        (if need_header none then [fieldnames] else []) ++
        [rowCells (rowDict "t" "A"
          [("GradingRule", ((false : Bool), "gd"))])]), none) ∧
    ((rowDict "t" "A"
        [("GradingRule", ((false : Bool), "gd"))]).lookup
      "AttendanceRule").getD "" = "" ∧
    (∃ k, log_results "t" "A" [("UnknownRule", ((true : Bool), "x"))] false
        none none = Except.error k ∧ k ∉ ruleNames) :=
  ⟨((c10_row_columns_and_keyerror "t" "A" none
      [("GradingRule", ((false : Bool), "gd"))]).2.1 (by decide)).1,
   (((c10_row_columns_and_keyerror "t" "A" none
      [("GradingRule", ((false : Bool), "gd"))]).2.1 (by decide)).2.2.2
      "AttendanceRule" (by decide) (by decide)).1,
   (c10_row_columns_and_keyerror "t" "A" none
      [("UnknownRule", ((true : Bool), "x"))]).2.2
      ⟨"UnknownRule", by decide, by decide⟩⟩
